import Mathlib

/-!
Shallow embedding of the authorization and content-workflow engine of the
Burst editorial news platform (Django app `news`), translated from
`src/news/views.py` and `src/news/forms.py`.  The Django model layer
(`news/models.py`) is not part of the sources; the few model methods the
views call (`is_reader`/`is_journalist`/`is_editor` role predicates and
`Article.approve`) are modelled from the spec, marked as such in their doc
comments.  Database tables are lists; actors, articles, newsletters and
subscriptions are structures mirroring the model fields the views touch.
-/

namespace Burst

/-- The five user roles of the platform (spec section 3: `role` is one of
reader, journalist, editor, publisher, staff). -/
inductive Role where
  | reader | journalist | editor | publisher | staff
deriving DecidableEq, Repr

/-- A user: opaque id, fixed role, email (used by the password-reset flow). -/
structure User where
  id : Nat
  role : Role
  email : String
deriving DecidableEq, Repr

/-- Modelled from the spec: `isReader(user)` is a pure predicate on
`user.role` (section 4.1); the method body lives in `news/models.py` which is
not among the sources. -/
def isReader (u : User) : Bool := u.role == .reader

/-- Modelled from the spec: `isJournalist(user)` is a pure predicate on
`user.role` (section 4.1). -/
def isJournalist (u : User) : Bool := u.role == .journalist

/-- Modelled from the spec: `isEditor(user)` is a pure predicate on
`user.role` (section 4.1). -/
def isEditor (u : User) : Bool := u.role == .editor

/-- A publishing house: owner plus editor and journalist member sets,
represented by user ids (mirrors `Publisher.owner/editors/journalists`). -/
structure Publisher where
  id : Nat
  ownerId : Nat
  editors : List Nat
  journalists : List Nat
deriving DecidableEq, Repr

/-- Article workflow states (`Article.status` choices). -/
inductive Status where
  | draft | pending | published | rejected
deriving DecidableEq, Repr

/-- An article, with the fields the views read or write.  `publisher` is
nullable (an article may be unaffiliated); `hero_image` is omitted as a
binary upload the decision logic never inspects. -/
structure Article where
  id : Nat
  authorId : Nat
  title : String
  content : String
  summary : String
  publisher : Option Publisher
  category : Option Nat
  status : Status
  isApproved : Bool
  approvedBy : Option Nat
deriving DecidableEq, Repr

/-- Whether `u` is in the editor set of article `a`'s publisher (false when
the article has no publisher) — the membership test
`article.publisher.editors.filter(pk=user.pk).exists()` of the views. -/
def isEditorOfArticle (u : User) (a : Article) : Bool :=
  match a.publisher with
  | some p => p.editors.contains u.id
  | none => false

/-- Denial reasons produced by the approval view before it mutates anything. -/
inductive ApproveDenial where
  | onlyEditors
  | notYourPublisher
deriving DecidableEq, Repr

/-- The guard section of `approve_article` (views.py lines 385-398): deny
unless the actor is an editor; then, only when the article HAS a publisher,
deny unless the actor belongs to that publisher's editor set.  An article
with `publisher == None` skips the membership check entirely. -/
def approveGuard (actor : User) (a : Article) : Option ApproveDenial :=
  if ¬ isEditor actor then some .onlyEditors
  else
    match a.publisher with
    | some p => if ¬ p.editors.contains actor.id then some .notYourPublisher else none
    | none => none

/-- The data an editor posts through `ArticleApprovalForm` (forms.py lines
202-216): the form exposes `status` as a free select over all status choices
plus the `is_approved` checkbox — no transition validation. -/
structure ApprovalPost where
  status : Status
  isApproved : Bool
deriving DecidableEq, Repr

/-- Modelled from the spec: `Article.approve(editor)` (`news/models.py` is
not among the sources).  Spec section 4.2: `pending → published`, setting an
approvedBy/approvedAt marker; section 5: the transition re-checks
`status == pending` and fails with `AlreadyDecided` otherwise, mutating
nothing.  Returns the (possibly updated) article and an optional error. -/
def Article.approve (a : Article) (editorId : Nat) : Article × Option Unit :=
  if a.status = .pending then
    ({ a with status := .published, isApproved := true, approvedBy := some editorId }, none)
  else
    (a, some ())

/-- Outcome of the approval view as the user sees it. -/
inductive ApproveOutcome where
  | denied (d : ApproveDenial)
  | success
deriving DecidableEq, Repr

/-- `approve_article` (views.py lines 381-412), POST branch: run the guard;
on pass, `form.save(commit=False)` writes the posted status and checkbox
onto the article, `article.approve(request.user)` is called with its return
value discarded, the article is saved, and a success message is emitted
unconditionally. -/
def approve_article (actor : User) (post : ApprovalPost) (a : Article) :
    Article × ApproveOutcome :=
  match approveGuard actor a with
  | some d => (a, .denied d)
  | none =>
    let a1 := { a with status := post.status, isApproved := post.isApproved }
    let a2 := (a1.approve actor.id).1
    (a2, .success)

/-- The permission check of `edit_article` (views.py lines 359-360):
`request.user == article.author or request.user.is_editor()` — an editor of
ANY publisher passes, membership in the article's publisher is not
consulted. -/
def editAllowed (actor : User) (a : Article) : Bool :=
  actor.id == a.authorId || isEditor actor

/-- The content fields `ArticleForm` exposes (forms.py lines 144-174):
title, content, summary, publisher, category — `status` and `is_approved`
are not among them. -/
structure EditPost where
  title : String
  content : String
  summary : String
  publisher : Option Publisher
  category : Option Nat
deriving DecidableEq, Repr

/-- `edit_article` (views.py lines 353-377): if the permission check fails,
redirect away leaving the article untouched (`false`); otherwise save the
posted content fields (`true`).  Status is never written. -/
def edit_article (actor : User) (post : EditPost) (a : Article) : Article × Bool :=
  if editAllowed actor a then
    ({ a with title := post.title, content := post.content, summary := post.summary,
              publisher := post.publisher, category := post.category }, true)
  else
    (a, false)

/-- The gate of `article_detail` (views.py lines 321-323): the only denial is
`request.user.is_reader() and article.status != 'published'`. -/
def detailAllowed (actor : User) (a : Article) : Bool :=
  !(isReader actor && a.status != .published)

/-- A subscription row: owning reader plus nullable publisher and journalist
references (mirrors `Subscription.user/publisher/journalist`, the foreign
keys stored as ids). -/
structure Subscription where
  user : Nat
  publisher : Option Nat
  journalist : Option Nat
deriving DecidableEq, Repr

/-- `SubscriptionForm.clean` (forms.py lines 295-305): the only validation
error is raised when BOTH `publisher` and `journalist` are empty; a
submission with both set passes validation. -/
def subscriptionFormValid (pub jour : Option Nat) : Bool :=
  pub.isSome || jour.isSome

/-- Whether the table already holds a row matching the Django lookup
`get_or_create(user=uid, publisher=p)` — the journalist column is not part
of the lookup. -/
def hasPubSub (subs : List Subscription) (uid p : Nat) : Bool :=
  subs.any fun s => s.user == uid && s.publisher == some p

/-- Whether the table already holds a row matching
`get_or_create(user=uid, journalist=j)`. -/
def hasJourSub (subs : List Subscription) (uid j : Nat) : Bool :=
  subs.any fun s => s.user == uid && s.journalist == some j

/-- Number of rows matching the `(user, publisher)` lookup key. -/
def pubSubCount (subs : List Subscription) (uid p : Nat) : Nat :=
  (subs.filter fun s => s.user == uid && s.publisher == some p).length

/-- Number of rows matching the `(user, journalist)` lookup key. -/
def jourSubCount (subs : List Subscription) (uid j : Nat) : Nat :=
  (subs.filter fun s => s.user == uid && s.journalist == some j).length

/-- What the subscription view reports back to the reader. -/
inductive SubscribeOutcome where
  | notReader
  | formError
  | subscribed
  | alreadySubscribed
deriving DecidableEq, Repr

/-- `subscription_management` (views.py lines 415-478), POST branch: only
readers pass the role gate; an empty form fails validation; otherwise the
publisher branch wins when a publisher is given (`if subscription.publisher`
before `elif subscription.journalist`), and `get_or_create` either inserts a
fresh row (success message) or finds the existing one and warns "already
subscribed". -/
def subscription_management (actor : User) (pub jour : Option Nat)
    (subs : List Subscription) : List Subscription × SubscribeOutcome :=
  if ¬ isReader actor then (subs, .notReader)
  else if ¬ subscriptionFormValid pub jour then (subs, .formError)
  else
    match pub with
    | some p =>
      if hasPubSub subs actor.id p then (subs, .alreadySubscribed)
      else (subs ++ [⟨actor.id, some p, none⟩], .subscribed)
    | none =>
      match jour with
      | some j =>
        if hasJourSub subs actor.id j then (subs, .alreadySubscribed)
        else (subs ++ [⟨actor.id, none, some j⟩], .subscribed)
      | none => (subs, .formError)

/-- A newsletter: author (journalist id), nullable publisher id, creation
timestamp used for ordering.  Newsletters have no workflow. -/
structure Newsletter where
  id : Nat
  authorId : Nat
  publisher : Option Nat
  createdAt : Nat
deriving DecidableEq, Repr

/-- The reader's subscribed publisher ids: the list comprehension
`[s.publisher for s in subs if s.publisher]` over
`Subscription.objects.filter(user=request.user)`. -/
def subscribedPubs (actor : User) (subs : List Subscription) : List Nat :=
  (subs.filter fun s => s.user == actor.id).filterMap fun s => s.publisher

/-- The reader's subscribed journalist ids: the list comprehension
`[s.journalist for s in subs if s.journalist]`. -/
def subscribedJours (actor : User) (subs : List Subscription) : List Nat :=
  (subs.filter fun s => s.user == actor.id).filterMap fun s => s.journalist

/-- The filter `Q(publisher__in=publishers) | Q(author__in=journalists)`:
a newsletter is visible when its publisher is among the subscribed
publishers (a NULL publisher never matches `__in`) or its author is among
the subscribed journalists. -/
def visibleTo (pubs jours : List Nat) (n : Newsletter) : Bool :=
  (match n.publisher with
   | some p => pubs.contains p
   | none => false) || jours.contains n.authorId

/-- Descending `created_at` order, the `order_by('-created_at')` of the
queryset. -/
def newerFirst (a b : Newsletter) : Bool :=
  decide (b.createdAt ≤ a.createdAt)

/-- The reader branch of `newsletter_list` (views.py lines 503-509): filter
the newsletter table by the subscription predicate, de-duplicate
(`distinct()` — a no-op on rows with distinct primary keys), order by
`created_at` descending, and slice the first 50. -/
def newsletter_list_reader (actor : User) (subs : List Subscription)
    (table : List Newsletter) : List Newsletter :=
  (((table.filter (visibleTo (subscribedPubs actor subs) (subscribedJours actor subs))).mergeSort
      newerFirst).take 50)

/-- `newsletter_detail` (views.py lines 516-521): `get_object_or_404` by
primary key and render.  There is no `login_required` decorator and the
requester is never consulted, so it is passed here only to state that. -/
def newsletter_detail (_requester : Option User) (table : List Newsletter)
    (pk : Nat) : Option Newsletter :=
  table.find? fun n => n.id == pk

/-- A password-reset token row (`PasswordResetToken.user/token/is_used`). -/
structure ResetToken where
  userId : Nat
  token : String
  isUsed : Bool
deriving DecidableEq, Repr

/-- The user-visible outcome of a password-reset request. -/
inductive ForgotOutcome where
  | success
  | errorNoAccount
deriving DecidableEq, Repr

/-- `forgot_password` (views.py lines 581-637), POST branch with a valid
form: look the user up by email.  Found: create a `PasswordResetToken`,
attempt the email (a send failure is swallowed by `try/except` — hence the
`emailSendFails` argument influences nothing), emit the success message and
redirect.  Not found: emit the "No account found" error and create no
token. -/
def forgot_password (users : List User) (tokens : List ResetToken)
    (email : String) (newTok : String) (_emailSendFails : Bool) :
    List ResetToken × ForgotOutcome :=
  match users.find? fun u => u.email == email with
  | some u => (tokens ++ [⟨u.id, newTok, false⟩], .success)
  | none => (tokens, .errorNoAccount)

/-! ## Claim C1 — approve/reject on a publisher-less article -/

/-- Claim C1 counterexample: an editor invokes approve on a pending article
whose publisher is null, and the operation is NOT denied — the view reports
success and the status changes to published.  The claimed categorical
`NoPublisherScope` denial does not exist: the guard
`if article.publisher and not ...` skips the scope check when the publisher
is null. -/
theorem approve_null_publisher_allowed_cex :
    (approve_article ⟨1, .editor, "e"⟩ ⟨.pending, true⟩
        ⟨10, 2, "t", "c", "s", none, none, .pending, false, none⟩).2 = .success ∧
    (approve_article ⟨1, .editor, "e"⟩ ⟨.pending, true⟩
        ⟨10, 2, "t", "c", "s", none, none, .pending, false, none⟩).1.status = .published :=
  ⟨rfl, rfl⟩

/-- Claim C1 (amended): on an article with no publisher, approve/reject is
denied exactly when the actor is not an editor (reason "only editors"); for
any editor-role actor the publisher-scope guard is skipped entirely and the
operation proceeds — no `NoPublisherScope` denial occurs for any role. -/
theorem approve_null_publisher_guard (actor : User) (a : Article)
    (h : a.publisher = none) :
    approveGuard actor a = (if isEditor actor then none else some .onlyEditors) := by
  unfold approveGuard
  rw [h]
  by_cases hE : isEditor actor <;> simp [hE]

/-- Claim C1 witness: the amended guard characterization evaluated on a
concrete editor and a concrete publisher-less article. -/
theorem approve_null_publisher_guard_inst :
    approveGuard ⟨1, .editor, "e"⟩
        ⟨10, 2, "t", "c", "s", none, none, .pending, false, none⟩ =
      (if isEditor ⟨1, .editor, "e"⟩ then none else some .onlyEditors) :=
  approve_null_publisher_guard ⟨1, .editor, "e"⟩
    ⟨10, 2, "t", "c", "s", none, none, .pending, false, none⟩ rfl

/-! ## Claim C2 — who may edit an article -/

/-- Claim C2 counterexample: an editor who is neither the author nor a
member of the article's publisher's editor set is nevertheless allowed to
edit — the view checks `is_editor()` (the global role), not membership. -/
theorem edit_foreign_editor_allowed_cex :
    editAllowed ⟨1, .editor, "e"⟩
        ⟨10, 2, "t", "c", "s", some ⟨5, 9, [], []⟩, none, .draft, false, none⟩ = true ∧
    (1 : Nat) ≠ 2 ∧
    isEditorOfArticle ⟨1, .editor, "e"⟩
        ⟨10, 2, "t", "c", "s", some ⟨5, 9, [], []⟩, none, .draft, false, none⟩ = false :=
  ⟨rfl, by decide, rfl⟩

/-- Claim C2 (amended): editing is allowed iff the actor is the article's
author or holds the editor role at all — membership in the article's
publisher's editor set plays no part; any other actor is denied and the
article is returned unchanged. -/
theorem edit_allowed_iff (actor : User) (a : Article) (post : EditPost) :
    (editAllowed actor a = true ↔ actor.id = a.authorId ∨ actor.role = .editor) ∧
    (editAllowed actor a = false → edit_article actor post a = (a, false)) := by
  refine ⟨?_, ?_⟩
  · simp [editAllowed, isEditor]
  · intro h
    simp [edit_article, h]

/-- Claim C2 witness: a reader who is not the author is denied and the
article comes back unchanged, by the amended theorem at concrete inputs. -/
theorem edit_allowed_iff_inst :
    edit_article ⟨3, .reader, "r"⟩ ⟨"t2", "c2", "s2", none, none⟩
        ⟨10, 2, "t", "c", "s", none, none, .draft, false, none⟩ =
      (⟨10, 2, "t", "c", "s", none, none, .draft, false, none⟩, false) :=
  (edit_allowed_iff ⟨3, .reader, "r"⟩
      ⟨10, 2, "t", "c", "s", none, none, .draft, false, none⟩
      ⟨"t2", "c2", "s2", none, none⟩).2 rfl

/-! ## Claim C5 — viewing a non-published article -/

/-- Claim C5 counterexample: a journalist who is not the author, not an
editor of the article's publisher, and not staff may still view a pending
article — the detail view only turns away readers. -/
theorem detail_nonauthor_journalist_cex :
    detailAllowed ⟨1, .journalist, "j"⟩
        ⟨10, 2, "t", "c", "s", some ⟨5, 9, [], []⟩, none, .pending, false, none⟩ = true ∧
    (⟨10, 2, "t", "c", "s", some ⟨5, 9, [], []⟩, none, .pending, false, none⟩ :
        Article).status ≠ .published ∧
    (1 : Nat) ≠ 2 ∧
    isEditorOfArticle ⟨1, .journalist, "j"⟩
        ⟨10, 2, "t", "c", "s", some ⟨5, 9, [], []⟩, none, .pending, false, none⟩ = false ∧
    Role.journalist ≠ Role.staff :=
  ⟨rfl, by decide, by decide, rfl, by decide⟩

/-- Claim C5 (amended): for a non-published article, viewing is allowed iff
the actor's role is not reader — authorship, publisher membership and staff
status are never consulted; every reader-role actor is denied (this half of
the original claim does hold). -/
theorem detail_nonpublished_iff (actor : User) (a : Article)
    (h : a.status ≠ .published) :
    detailAllowed actor a = true ↔ actor.role ≠ .reader := by
  have hb : (a.status != Status.published) = true := by
    simpa [bne_iff_ne] using h
  simp [detailAllowed, isReader, hb]

/-- Claim C5 witness: the amended characterization at a concrete journalist
and a concrete pending article. -/
theorem detail_nonpublished_iff_inst :
    detailAllowed ⟨1, .journalist, "j"⟩
        ⟨10, 2, "t", "c", "s", none, none, .pending, false, none⟩ = true :=
  (detail_nonpublished_iff ⟨1, .journalist, "j"⟩
      ⟨10, 2, "t", "c", "s", none, none, .pending, false, none⟩
      (by decide)).mpr (by decide)

/-! ## Claim C3 — the status state machine -/

/-- Claim C3 counterexample: a published (terminal) article is moved back to
draft by the approval view — the `ArticleApprovalForm` exposes `status` as a
free select and no transition guard exists, so the draft→pending→terminal
discipline is not enforced. -/
theorem published_back_to_draft_cex :
    (approve_article ⟨1, .editor, "e"⟩ ⟨.draft, false⟩
        ⟨10, 2, "t", "c", "s", none, none, .published, true, some 1⟩).1.status = .draft ∧
    (⟨10, 2, "t", "c", "s", none, none, .published, true, some 1⟩ :
        Article).status = .published :=
  ⟨rfl, rfl⟩

/-- Claim C3 (amended): editing never changes `status`, and the approval
view — the only status-writing operation — sets the status to whatever the
form posted (a posted `pending` is immediately bumped to `published` by the
model-layer approve) whenever the role/scope guard passes, and leaves it
unchanged when the guard denies.  In particular terminal articles can be
moved back to `draft` or `pending`. -/
theorem approval_status_characterization (actor : User) (post : ApprovalPost)
    (a : Article) (e : EditPost) :
    (approve_article actor post a).1.status =
      (if approveGuard actor a = none then
        (if post.status = .pending then Status.published else post.status)
       else a.status) ∧
    (edit_article actor e a).1.status = a.status := by
  refine ⟨?_, ?_⟩
  · unfold approve_article
    cases hg : approveGuard actor a with
    | some d => simp
    | none =>
      by_cases hp : post.status = .pending <;>
        simp [Article.approve, hp]
  · unfold edit_article
    by_cases h : editAllowed actor a <;> simp [h]

/-! ## Claim C4 — double approval and AlreadyDecided -/

/-- Claim C4 counterexample: approving an article that is already published
succeeds again — the view emits its success message unconditionally and no
`AlreadyDecided` failure is ever surfaced to the caller. -/
theorem approve_already_published_succeeds_cex :
    (approve_article ⟨1, .editor, "e"⟩ ⟨.published, true⟩
        ⟨10, 2, "t", "c", "s", none, none, .published, true, some 1⟩).2 = .success ∧
    (⟨10, 2, "t", "c", "s", none, none, .published, true, some 1⟩ :
        Article).status = .published ∧
    (approve_article ⟨1, .editor, "e"⟩ ⟨.published, true⟩
        ⟨10, 2, "t", "c", "s", none, none, .published, true, some 1⟩).1.status = .published :=
  ⟨rfl, rfl, rfl⟩

/-- Claim C4 (amended): whenever the role/scope guard passes, the approve
view reports success regardless of the article's current status — the
`pending` re-check lives only in the (spec-modelled) model-layer
`Article.approve`, whose `AlreadyDecided` result the view discards — and the
persisted status is the posted one, with a posted `pending` becoming
`published`. -/
theorem approve_view_guard_pass (actor : User) (post : ApprovalPost)
    (a : Article) (h : approveGuard actor a = none) :
    (approve_article actor post a).2 = .success ∧
    (approve_article actor post a).1.status =
      (if post.status = .pending then Status.published else post.status) := by
  unfold approve_article
  rw [h]
  by_cases hp : post.status = .pending <;>
    simp [Article.approve, hp]

/-- Claim C4 witness: re-approving a concrete already-published article
reports success, by the amended theorem. -/
theorem approve_view_guard_pass_inst :
    (approve_article ⟨1, .editor, "e"⟩ ⟨.published, true⟩
        ⟨10, 2, "t", "c", "s", none, none, .published, true, some 1⟩).2 = .success :=
  (approve_view_guard_pass ⟨1, .editor, "e"⟩ ⟨.published, true⟩
      ⟨10, 2, "t", "c", "s", none, none, .published, true, some 1⟩ rfl).1

/-! ## Claim C6 — subscribe target validation -/

/-- Claim C6 counterexample: a reader submitting BOTH a publisher and a
journalist target is not rejected — `SubscriptionForm.clean` only errors
when neither is given, and the view's publisher branch wins, creating a
publisher-only subscription. -/
theorem subscribe_both_targets_accepted_cex :
    subscription_management ⟨3, .reader, "r"⟩ (some 1) (some 2) [] =
      ([⟨3, some 1, none⟩], .subscribed) :=
  rfl

/-- Claim C6 (amended): for a reader, a subscribe request with NEITHER
target fails form validation (the `AmbiguousTarget`-style error) and creates
nothing, but a request with BOTH targets set is accepted: the publisher
branch wins and a publisher-only subscription row is created, the journalist
target being silently dropped. -/
theorem subscribe_target_validation (actor : User) (p j : Nat)
    (subs : List Subscription) (hr : isReader actor = true) :
    subscription_management actor none none subs = (subs, .formError) ∧
    (hasPubSub subs actor.id p = false →
      subscription_management actor (some p) (some j) subs =
        (subs ++ [⟨actor.id, some p, none⟩], .subscribed)) := by
  refine ⟨?_, ?_⟩
  · simp [subscription_management, hr, subscriptionFormValid]
  · intro h
    simp [subscription_management, hr, subscriptionFormValid, h]

/-- Claim C6 witness: the amended claim at a concrete reader, concrete
targets and the empty subscription table. -/
theorem subscribe_target_validation_inst :
    subscription_management ⟨3, .reader, "r"⟩ none none [] = ([], .formError) ∧
    subscription_management ⟨3, .reader, "r"⟩ (some 1) (some 2) [] =
      ([⟨3, some 1, none⟩], .subscribed) :=
  ⟨(subscribe_target_validation ⟨3, .reader, "r"⟩ 1 2 [] rfl).1,
   (subscribe_target_validation ⟨3, .reader, "r"⟩ 1 2 [] rfl).2 rfl⟩

/-! ## Claim C7 — subscribe is idempotent -/

/-- Claim C7: for a reader and a valid single target (either kind), the
first subscribe inserts exactly one row for the `(reader, target)` key and
reports success; repeating the identical call mutates nothing and reports
"already subscribed". -/
theorem subscribe_idempotent (actor : User) (p j : Nat)
    (subs : List Subscription) (hr : isReader actor = true)
    (hp : hasPubSub subs actor.id p = false)
    (hj : hasJourSub subs actor.id j = false) :
    (subscription_management actor (some p) none subs =
      (subs ++ [⟨actor.id, some p, none⟩], .subscribed)) ∧
    pubSubCount (subs ++ [⟨actor.id, some p, none⟩]) actor.id p = 1 ∧
    (subscription_management actor (some p) none (subs ++ [⟨actor.id, some p, none⟩]) =
      (subs ++ [⟨actor.id, some p, none⟩], .alreadySubscribed)) ∧
    (subscription_management actor none (some j) subs =
      (subs ++ [⟨actor.id, none, some j⟩], .subscribed)) ∧
    jourSubCount (subs ++ [⟨actor.id, none, some j⟩]) actor.id j = 1 ∧
    (subscription_management actor none (some j) (subs ++ [⟨actor.id, none, some j⟩]) =
      (subs ++ [⟨actor.id, none, some j⟩], .alreadySubscribed)) := by
  have hpc : pubSubCount subs actor.id p = 0 := by
    unfold pubSubCount
    unfold hasPubSub at hp
    rw [List.any_eq_false] at hp
    rw [List.length_eq_zero, List.filter_eq_nil_iff]
    exact hp
  have hjc : jourSubCount subs actor.id j = 0 := by
    unfold jourSubCount
    unfold hasJourSub at hj
    rw [List.any_eq_false] at hj
    rw [List.length_eq_zero, List.filter_eq_nil_iff]
    exact hj
  have hp2 : hasPubSub (subs ++ [⟨actor.id, some p, none⟩]) actor.id p = true := by
    unfold hasPubSub
    simp [List.any_append]
  have hj2 : hasJourSub (subs ++ [⟨actor.id, none, some j⟩]) actor.id j = true := by
    unfold hasJourSub
    simp [List.any_append]
  refine ⟨?_, ?_, ?_, ?_, ?_, ?_⟩
  · simp [subscription_management, hr, subscriptionFormValid, hp]
  · unfold pubSubCount at hpc ⊢
    rw [List.filter_append, List.length_append, hpc]
    simp
  · simp [subscription_management, hr, subscriptionFormValid, hp2]
  · simp [subscription_management, hr, subscriptionFormValid, hj]
  · unfold jourSubCount at hjc ⊢
    rw [List.filter_append, List.length_append, hjc]
    simp
  · simp [subscription_management, hr, subscriptionFormValid, hj2]

/-- Claim C7 witness: subscribing a concrete reader to publisher 1 twice
from an empty table leaves exactly one matching row and the second call
reports "already subscribed". -/
theorem subscribe_idempotent_inst :
    pubSubCount ([] ++ [⟨3, some 1, none⟩]) 3 1 = 1 ∧
    subscription_management ⟨3, .reader, "r"⟩ (some 1) none ([] ++ [⟨3, some 1, none⟩]) =
      ([] ++ [⟨3, some 1, none⟩], .alreadySubscribed) :=
  ⟨(subscribe_idempotent ⟨3, .reader, "r"⟩ 1 2 [] rfl rfl rfl).2.1,
   (subscribe_idempotent ⟨3, .reader, "r"⟩ 1 2 [] rfl rfl rfl).2.2.1⟩

/-! ## Claim C8 — the visible-newsletter resolver -/

/-- Claim C8: the reader branch of the newsletter list returns only
newsletters whose publisher is among the reader's subscribed publishers or
whose author is among the subscribed journalists, ordered by `created_at`
descending, capped at 50, with no duplicate rows; and when at most 50
newsletters match, it returns exactly the matching ones. -/
theorem newsletter_list_reader_spec (actor : User) (subs : List Subscription)
    (table : List Newsletter) (hid : (table.map Newsletter.id).Nodup) :
    (∀ n ∈ newsletter_list_reader actor subs table,
      n ∈ table ∧
      visibleTo (subscribedPubs actor subs) (subscribedJours actor subs) n = true) ∧
    (newsletter_list_reader actor subs table).length ≤ 50 ∧
    (newsletter_list_reader actor subs table).Pairwise
      (fun a b => b.createdAt ≤ a.createdAt) ∧
    ((newsletter_list_reader actor subs table).map Newsletter.id).Nodup ∧
    ((table.filter
        (visibleTo (subscribedPubs actor subs) (subscribedJours actor subs))).length ≤ 50 →
      ∀ n, n ∈ newsletter_list_reader actor subs table ↔
        n ∈ table ∧
        visibleTo (subscribedPubs actor subs) (subscribedJours actor subs) n = true) := by
  have hres : newsletter_list_reader actor subs table =
      ((table.filter
          (visibleTo (subscribedPubs actor subs) (subscribedJours actor subs))).mergeSort
        newerFirst).take 50 := rfl
  have hperm :
      ((table.filter
          (visibleTo (subscribedPubs actor subs) (subscribedJours actor subs))).mergeSort
        newerFirst).Perm
        (table.filter
          (visibleTo (subscribedPubs actor subs) (subscribedJours actor subs))) :=
    List.mergeSort_perm _ _
  refine ⟨?_, ?_, ?_, ?_, ?_⟩
  · intro n hn
    rw [hres] at hn
    have h1 := List.take_subset _ _ hn
    rw [List.mem_mergeSort] at h1
    exact List.mem_filter.mp h1
  · rw [hres]
    exact List.length_take_le _ _
  · rw [hres]
    have htrans : ∀ (a b c : Newsletter),
        newerFirst a b → newerFirst b c → newerFirst a c := by
      intro a b c hab hbc
      simp only [newerFirst, decide_eq_true_eq] at *
      omega
    have htotal : ∀ (a b : Newsletter), newerFirst a b || newerFirst b a := by
      intro a b
      simp only [newerFirst, Bool.or_eq_true, decide_eq_true_eq]
      omega
    have hs := List.sorted_mergeSort htrans htotal
      (table.filter
        (visibleTo (subscribedPubs actor subs) (subscribedJours actor subs)))
    have hs2 := List.Pairwise.sublist (List.take_sublist 50 _) hs
    exact hs2.imp (by
      intro a b h
      simpa [newerFirst] using h)
  · have h1 : ((table.filter
        (visibleTo (subscribedPubs actor subs) (subscribedJours actor subs))).map
        Newsletter.id).Nodup :=
      hid.sublist ((List.filter_sublist table).map Newsletter.id)
    have h2 : (((table.filter
        (visibleTo (subscribedPubs actor subs) (subscribedJours actor subs))).mergeSort
          newerFirst).map Newsletter.id).Nodup :=
      ((hperm.map Newsletter.id).nodup_iff).mpr h1
    rw [hres]
    exact h2.sublist ((List.take_sublist 50 _).map Newsletter.id)
  · intro hlen n
    have hlen2 : ((table.filter
        (visibleTo (subscribedPubs actor subs) (subscribedJours actor subs))).mergeSort
          newerFirst).length ≤ 50 := by
      rw [List.length_mergeSort]
      exact hlen
    rw [hres, List.take_of_length_le hlen2, List.mem_mergeSort, List.mem_filter]

/-- Claim C8 witness: the resolver evaluated for a concrete reader
subscribed to publisher 1, over a concrete two-newsletter table. -/
theorem newsletter_list_reader_spec_inst :
    (([⟨100, 7, some 1, 5⟩, ⟨101, 8, none, 9⟩] : List Newsletter).map
        Newsletter.id).Nodup ∧
    (newsletter_list_reader ⟨3, .reader, "r"⟩ [⟨3, some 1, none⟩]
        [⟨100, 7, some 1, 5⟩, ⟨101, 8, none, 9⟩]).length ≤ 50 :=
  ⟨by decide,
   (newsletter_list_reader_spec ⟨3, .reader, "r"⟩ [⟨3, some 1, none⟩]
      [⟨100, 7, some 1, 5⟩, ⟨101, 8, none, 9⟩] (by decide)).2.1⟩

/-! ## Claim C9 — the single-newsletter view is public -/

/-- Looking a newsletter up by its own id succeeds when the table's ids are
distinct. -/
theorem find_newsletter_by_id (table : List Newsletter) (n : Newsletter)
    (hid : (table.map Newsletter.id).Nodup) (hn : n ∈ table) :
    (table.find? fun m => m.id == n.id) = some n := by
  induction table with
  | nil => cases hn
  | cons h t ih =>
    rw [List.map_cons, List.nodup_cons] at hid
    rcases List.mem_cons.mp hn with rfl | hmem
    · exact List.find?_cons_of_pos _ (by simp)
    · have hne : (h.id == n.id) = false := by
        rw [beq_eq_false_iff_ne]
        intro he
        exact hid.1 (he ▸ List.mem_map_of_mem Newsletter.id hmem)
      rw [List.find?_cons_of_neg _ (by simp [hne])]
      exact ih hid.2 hmem

/-- Claim C9: the single-newsletter view has no authentication, role or
subscription precondition — its result is the same for every requester
(including an unauthenticated one), and for any newsletter in the table it
returns that newsletter. -/
theorem newsletter_detail_public (r r' : Option User) (table : List Newsletter)
    (pk : Nat) (n : Newsletter)
    (hid : (table.map Newsletter.id).Nodup) (hn : n ∈ table) :
    newsletter_detail r table pk = newsletter_detail r' table pk ∧
    newsletter_detail r table n.id = some n :=
  ⟨rfl, find_newsletter_by_id table n hid hn⟩

/-- Claim C9 witness: an unauthenticated requester retrieves a concrete
newsletter. -/
theorem newsletter_detail_public_inst :
    newsletter_detail none [⟨100, 7, some 1, 5⟩] 100 = some ⟨100, 7, some 1, 5⟩ :=
  (newsletter_detail_public none (some ⟨3, .reader, "r"⟩) [⟨100, 7, some 1, 5⟩]
      100 ⟨100, 7, some 1, 5⟩ (by decide) (by decide)).2

/-! ## Claim C10 — the password-reset flow reveals account existence -/

/-- Claim C10: the reset-request flow's visible outcome depends only on
whether the email belongs to an account — an existing email yields a created
token and the success result (email-dispatch failure changes nothing), an
unknown email yields the error result and no token — so the two runs are
distinguishable. -/
theorem forgot_password_reveals_account (users : List User)
    (tokens : List ResetToken) (email newTok : String) (f f' : Bool) :
    forgot_password users tokens email newTok f =
      forgot_password users tokens email newTok f' ∧
    ((∃ u ∈ users, u.email = email) →
      (forgot_password users tokens email newTok f).2 = .success ∧
      (forgot_password users tokens email newTok f).1.length = tokens.length + 1) ∧
    ((∀ u ∈ users, u.email ≠ email) →
      forgot_password users tokens email newTok f = (tokens, .errorNoAccount)) := by
  refine ⟨rfl, ?_, ?_⟩
  · rintro ⟨u, hu, he⟩
    have hsome : (users.find? fun v => v.email == email).isSome := by
      rw [List.find?_isSome]
      exact ⟨u, hu, by simp [he]⟩
    obtain ⟨v, hv⟩ := Option.isSome_iff_exists.mp hsome
    unfold forgot_password
    rw [hv]
    simp
  · intro h
    have hnone : (users.find? fun v => v.email == email) = none := by
      rw [List.find?_eq_none]
      intro u hu
      simp [h u hu]
    unfold forgot_password
    rw [hnone]

/-- Claim C10 witness: with one account whose email is "a", requesting a
reset for "a" succeeds and mints a token while requesting one for "b" errors
and mints none. -/
theorem forgot_password_reveals_account_inst :
    (forgot_password [⟨1, .reader, "a"⟩] [] "a" "tok" true).2 = .success ∧
    (forgot_password [⟨1, .reader, "a"⟩] [] "a" "tok" true).1.length = 0 + 1 ∧
    forgot_password [⟨1, .reader, "a"⟩] [] "b" "tok" true = ([], .errorNoAccount) :=
  ⟨((forgot_password_reveals_account [⟨1, .reader, "a"⟩] [] "a" "tok" true true).2.1
      ⟨⟨1, .reader, "a"⟩, by decide, rfl⟩).1,
   ((forgot_password_reveals_account [⟨1, .reader, "a"⟩] [] "a" "tok" true true).2.1
      ⟨⟨1, .reader, "a"⟩, by decide, rfl⟩).2,
   (forgot_password_reveals_account [⟨1, .reader, "a"⟩] [] "b" "tok" true true).2.2
      (by decide)⟩

end Burst
